import Mathlib

/-!
Verification development for the LLM invocation helper `call_llm`
(`src/app.py`) of the AI Translator & Critic application.

The helper performs one synchronous HTTP POST and maps every outcome to a
returned value.  We embed it shallowly: the transport layer is a parameter
describing the single observed outcome of the POST (a raised
`requests.RequestException`, or a response seen through `status_code`,
`.json()` and `.text`), and `call_llm` produces the emitted log records, the
list of attempted requests and the returned value (or the escaping Python
exception).
-/

set_option autoImplicit false

namespace LLMApp

/-- JSON values as produced by `resp.json()` / consumed by `json.dumps`.
Numbers are modelled as integers: no claim involves fractional numbers. -/
inductive Json where
  | null
  | bool (b : Bool)
  | num (n : Int)
  | str (s : String)
  | arr (elems : List Json)
  | obj (entries : List (String × Json))

/-- First-match lookup in the entry list of a JSON object.  Objects coming
from `json.loads` are Python dicts, so their keys are unique and first match
is exactly dict access. -/
def lookupKey : List (String × Json) → String → Option Json
  | [], _ => none
  | (k, v) :: rest, key => if k = key then some v else lookupKey rest key

def dquoteChar : Char := Char.ofNat 34

def squoteChar : Char := Char.ofNat 39

def backslashChar : Char := Char.ofNat 92

/-- Lowercase hexadecimal digit. -/
def hexDigit (n : Nat) : Char :=
  if n < 10 then Char.ofNat (48 + n) else Char.ofNat (87 + n)

/-- Four-digit lowercase hexadecimal rendering, as in `\uXXXX` escapes. -/
def hex4 (n : Nat) : String :=
  String.mk [hexDigit (n / 4096 % 16), hexDigit (n / 256 % 16),
    hexDigit (n / 16 % 16), hexDigit (n % 16)]

/-- Escaping of one character by `json.dumps` with its default
`ensure_ascii=True`: short escapes for the common control characters,
`\uXXXX` for other control and all non-ASCII characters (surrogate pairs
beyond the BMP), everything else verbatim. -/
def jsonEscapeChar (c : Char) : String :=
  if c = dquoteChar then "\\\""
  else if c = backslashChar then "\\\\"
  else if c = Char.ofNat 10 then "\\n"
  else if c = Char.ofNat 13 then "\\r"
  else if c = Char.ofNat 9 then "\\t"
  else if c = Char.ofNat 8 then "\\b"
  else if c = Char.ofNat 12 then "\\f"
  else if c.toNat < 32 then "\\u" ++ hex4 c.toNat
  else if c.toNat < 127 then String.singleton c
  else if c.toNat < 65536 then "\\u" ++ hex4 c.toNat
  else
    "\\u" ++ hex4 (55296 + (c.toNat - 65536) / 1024)
      ++ "\\u" ++ hex4 (56320 + (c.toNat - 65536) % 1024)

def jsonEscape (s : String) : String :=
  String.join (s.toList.map jsonEscapeChar)

mutual

/-- `json.dumps` with its default separators, as used by `requests` to
serialize the `json=` payload into the request body. -/
def dumps : Json → String
  | .null => "null"
  | .bool true => "true"
  | .bool false => "false"
  | .num n => toString n
  | .str s => "\"" ++ jsonEscape s ++ "\""
  | .arr xs => "[" ++ dumpsElems xs ++ "]"
  | .obj kvs => "\x7b" ++ dumpsEntries kvs ++ "\x7d"

def dumpsElems : List Json → String
  | [] => ""
  | [x] => dumps x
  | x :: y :: rest => dumps x ++ ", " ++ dumpsElems (y :: rest)

def dumpsEntries : List (String × Json) → String
  | [] => ""
  | [(k, v)] => "\"" ++ jsonEscape k ++ "\": " ++ dumps v
  | (k, v) :: e :: rest =>
    "\"" ++ jsonEscape k ++ "\": " ++ dumps v ++ ", " ++ dumpsEntries (e :: rest)

end

/-- Quote character chosen by Python `repr` for a string: double quote when
the string contains a single quote but no double quote, else single quote. -/
def pyQuoteChar (s : String) : Char :=
  if s.toList.contains squoteChar && !(s.toList.contains dquoteChar)
  then dquoteChar else squoteChar

/-- Escaping of one character inside a Python string `repr` with quote `q`.
(CPython additionally renders unprintable characters other than these as
`\xNN`; no claim depends on that case.) -/
def pyEscapeChar (q : Char) (c : Char) : String :=
  if c = backslashChar then "\\\\"
  else if c = q then "\\" ++ String.singleton q
  else if c = Char.ofNat 10 then "\\n"
  else if c = Char.ofNat 13 then "\\r"
  else if c = Char.ofNat 9 then "\\t"
  else String.singleton c

/-- Python `repr` of a string. -/
def pyReprStr (s : String) : String :=
  String.singleton (pyQuoteChar s)
    ++ String.join (s.toList.map (pyEscapeChar (pyQuoteChar s)))
    ++ String.singleton (pyQuoteChar s)

mutual

/-- Python `repr` of a value obtained from `json.loads`. -/
def pyRepr : Json → String
  | .null => "None"
  | .bool true => "True"
  | .bool false => "False"
  | .num n => toString n
  | .str s => pyReprStr s
  | .arr xs => "[" ++ pyReprElems xs ++ "]"
  | .obj kvs => "\x7b" ++ pyReprEntries kvs ++ "\x7d"

def pyReprElems : List Json → String
  | [] => ""
  | [x] => pyRepr x
  | x :: y :: rest => pyRepr x ++ ", " ++ pyReprElems (y :: rest)

def pyReprEntries : List (String × Json) → String
  | [] => ""
  | [(k, v)] => pyReprStr k ++ ": " ++ pyRepr v
  | (k, v) :: e :: rest =>
    pyReprStr k ++ ": " ++ pyRepr v ++ ", " ++ pyReprEntries (e :: rest)

end

/-- Python `str` of a value obtained from `json.loads`, as interpolated by
`%s` logging arguments and f-strings: a string passes through verbatim,
every other value renders as its `repr`. -/
def pyStr : Json → String
  | .str s => s
  | .null => pyRepr .null
  | .bool b => pyRepr (.bool b)
  | .num n => pyRepr (.num n)
  | .arr xs => pyRepr (.arr xs)
  | .obj kvs => pyRepr (.obj kvs)

/-- A role/content message object, as the unit tests pass to `call_llm`
(a Python dict with `role` and `content` keys). -/
structure ChatMessage where
  role : String
  content : String

/-- The `messages` argument of `call_llm`.  The annotation in `app.py` is
`List[str]`, but Python does not enforce it and the repository's tests also
call the helper with a list of role/content message dicts. -/
inductive PromptInput where
  | strs (lines : List String)
  | msgs (items : List ChatMessage)

/-- A Python exception escaping from `call_llm`. -/
inductive PyErr where
  | typeError (msg : String)

/-- Models `"\n".join(messages)` (`app.py` line 47): joining a list of
strings succeeds; joining a non-empty list of dicts raises `TypeError`
(the empty list joins to `""` whatever its element type). -/
def joinPrompt : PromptInput → Except PyErr String
  | .strs lines => .ok (String.intercalate "\n" lines)
  | .msgs [] => .ok ""
  | .msgs (_ :: _) =>
    .error (.typeError "sequence item 0: expected str instance, dict found")

/-- Module-level configuration of `app.py`: `MENTORPIECE_API_KEY`
(`os.getenv`, so `none` when unset, possibly `some ""`) and
`MENTORPIECE_ENDPOINT`. -/
structure Config where
  apiKey : Option String
  endpoint : String

/-- Python truthiness of `MENTORPIECE_API_KEY`, as tested by
`if not MENTORPIECE_API_KEY` / `if MENTORPIECE_API_KEY`: an unset or empty
key is falsy. -/
def keyTruthy (cfg : Config) : Bool :=
  match cfg.apiKey with
  | none => false
  | some s => !(s == "")

/-- Outcome of the single `requests.post`, as `call_llm` can observe it:
either a raised `requests.RequestException` with its text, or a response
seen through `status_code`, `.json()` (`none` when the body is not valid
JSON, so `.json()` raises) and `.text` (the raw body). -/
inductive TransportOutcome where
  | exception (desc : String)
  | response (status : Nat) (jsonData : Option Json) (text : String)

/-- A log record: level and fully formatted message.  `logger.exception`
logs at error level. -/
inductive LogLevel where
  | info
  | warning
  | error
deriving DecidableEq

structure LogRecord where
  level : LogLevel
  message : String
deriving DecidableEq

/-- The HTTP request handed to `requests.post`: URL, header items in
insertion order, the `json=` payload and the timeout in seconds. -/
structure Request where
  url : String
  headers : List (String × String)
  bodyJson : Json
  timeout : Nat

/-- The serialized request body: `requests` encodes the `json=` payload
with `json.dumps`. -/
def requestBody (r : Request) : String :=
  dumps r.bodyJson

/-- Everything observable about one run of `call_llm`: the log records it
emitted, the POST requests it attempted, and the value it returned (or the
Python exception that escaped). -/
structure CallOutput where
  logs : List LogRecord
  attempts : List Request
  result : Except PyErr Json

def promptLen : PromptInput → Nat
  | .strs l => l.length
  | .msgs l => l.length

/-- The record of `logger.info("call_llm: model=%s, messages=%d lines", ...)`. -/
def infoLog (model : String) (input : PromptInput) : LogRecord :=
  ⟨.info, "call_llm: model=" ++ model ++ ", messages="
    ++ toString (promptLen input) ++ " lines"⟩

def missingKeyWarning : String :=
  "MENTORPIECE_API_KEY не задан — выполняем запрос без Authorization header"

/-- Log records emitted before the request is built: the info record, plus
the warning when the key is falsy. -/
def baseLogs (cfg : Config) (model : String) (input : PromptInput) :
    List LogRecord :=
  if keyTruthy cfg then [infoLog model input]
  else [infoLog model input, ⟨.warning, missingKeyWarning⟩]

/-- Headers built at `app.py` lines 49-51: `Content-Type` always,
`Authorization: Bearer <key>` only when the key is truthy. -/
def buildHeaders (cfg : Config) : List (String × String) :=
  if keyTruthy cfg then
    [("Content-Type", "application/json"),
     ("Authorization", "Bearer " ++ cfg.apiKey.getD "")]
  else
    [("Content-Type", "application/json")]

/-- The `payload` dict of `app.py` lines 52-55. -/
def buildPayload (model prompt : String) : Json :=
  .obj [("model_name", .str model), ("prompt", .str prompt)]

def buildRequest (cfg : Config) (model prompt : String) : Request :=
  ⟨cfg.endpoint, buildHeaders cfg, buildPayload model prompt, 15⟩

/-- `str(err)` for the HTTP-error branch: the parsed JSON body when
`resp.json()` succeeds, else `resp.text`. -/
def apiErrText (jsonData : Option Json) (text : String) : String :=
  match jsonData with
  | some j => pyStr j
  | none => text

/-- Shallow embedding of `call_llm` (`app.py` lines 33-76), following the
source line by line.  The info log and the missing-key warning come first;
`"\n".join(messages)` may raise `TypeError` before any request is made;
otherwise exactly one POST is attempted and the outcome is classified:
transport exception, then HTTP status `>= 400`, then invalid JSON body,
then extraction of the `response` key, with an unexpected-format error
string as the final fallback. -/
def call_llm (cfg : Config) (model_name : String) (messages : PromptInput)
    (outcome : TransportOutcome) : CallOutput :=
  match joinPrompt messages with
  | .error e => ⟨baseLogs cfg model_name messages, [], .error e⟩
  | .ok prompt =>
    match outcome with
    | .exception desc =>
      ⟨baseLogs cfg model_name messages
         ++ [⟨.error, "Network error when calling LLM API: " ++ desc⟩],
       [buildRequest cfg model_name prompt],
       .ok (.str ("[Сетевая ошибка] " ++ desc))⟩
    | .response status jsonData text =>
      if 400 ≤ status then
        ⟨baseLogs cfg model_name messages
           ++ [⟨.error, "LLM API returned error status " ++ toString status
                 ++ ": " ++ apiErrText jsonData text⟩],
         [buildRequest cfg model_name prompt],
         .ok (.str ("[Ошибка API " ++ toString status ++ "] "
           ++ apiErrText jsonData text))⟩
      else
        match jsonData with
        | none =>
          ⟨baseLogs cfg model_name messages
             ++ [⟨.error, "Invalid JSON received from LLM API"⟩],
           [buildRequest cfg model_name prompt],
           .ok (.str "[Ошибка] Невалидный JSON в ответе от LLM")⟩
        | some data =>
          match data with
          | .obj kvs =>
            match lookupKey kvs "response" with
            | some v =>
              ⟨baseLogs cfg model_name messages,
               [buildRequest cfg model_name prompt], .ok v⟩
            | none =>
              ⟨baseLogs cfg model_name messages
                 ++ [⟨.error, "Unexpected response format from LLM API: "
                       ++ pyStr (.obj kvs)⟩],
               [buildRequest cfg model_name prompt],
               .ok (.str ("[Ошибка] Непредвиденный формат ответа: "
                 ++ dumps (.obj kvs)))⟩
          | other =>
            ⟨baseLogs cfg model_name messages
               ++ [⟨.error, "Unexpected response format from LLM API: "
                     ++ pyStr other⟩],
             [buildRequest cfg model_name prompt],
             .ok (.str ("[Ошибка] Непредвиденный формат ответа: "
               ++ dumps other))⟩

/-- `true` when the parsed body is a dict with a `response` key
(`isinstance(data, dict) and "response" in data`). -/
def hasResponseKey : Json → Bool
  | .obj kvs => (lookupKey kvs "response").isSome
  | _ => false

/-- `true` when `needle` occurs as a contiguous substring of the character
list `hay`. -/
def occursInChars (needle : List Char) : List Char → Bool
  | [] => needle.isEmpty
  | c :: rest => needle.isPrefixOf (c :: rest) || occursInChars needle rest

/-- `true` when `needle` occurs as a substring of `hay`. -/
def strOccurs (needle hay : String) : Bool :=
  occursInChars needle.toList hay.toList

/-! ### Helper lemmas -/

theorem call_llm_attempts (cfg : Config) (model : String) (input : PromptInput)
    (outcome : TransportOutcome) (p : String) (hp : joinPrompt input = .ok p) :
    (call_llm cfg model input outcome).attempts = [buildRequest cfg model p] := by
  cases outcome with
  | exception desc => simp [call_llm, hp]
  | response status jsonData text =>
    by_cases h4 : 400 ≤ status
    · simp [call_llm, hp, h4]
    · cases jsonData with
      | none => simp [call_llm, hp, h4]
      | some data =>
        cases data with
        | obj kvs =>
          cases hl : lookupKey kvs "response" <;> simp [call_llm, hp, h4, hl]
        | null => simp [call_llm, hp, h4]
        | bool b => simp [call_llm, hp, h4]
        | num n => simp [call_llm, hp, h4]
        | str s => simp [call_llm, hp, h4]
        | arr xs => simp [call_llm, hp, h4]

theorem baseLogs_congr (cfg1 cfg2 : Config) (model : String) (input : PromptInput)
    (h : keyTruthy cfg1 = keyTruthy cfg2) :
    baseLogs cfg1 model input = baseLogs cfg2 model input := by
  simp [baseLogs, h]

theorem call_llm_logs_congr (cfg1 cfg2 : Config) (model : String)
    (input : PromptInput) (outcome : TransportOutcome)
    (h : keyTruthy cfg1 = keyTruthy cfg2) :
    (call_llm cfg1 model input outcome).logs
      = (call_llm cfg2 model input outcome).logs := by
  have hb := baseLogs_congr cfg1 cfg2 model input h
  cases hj : joinPrompt input with
  | error e => simp [call_llm, hj, hb]
  | ok p =>
    cases outcome with
    | exception desc => simp [call_llm, hj, hb]
    | response status jsonData text =>
      by_cases h4 : 400 ≤ status
      · simp [call_llm, hj, h4, hb]
      · cases jsonData with
        | none => simp [call_llm, hj, h4, hb]
        | some data =>
          cases data with
          | obj kvs =>
            cases hl : lookupKey kvs "response" <;>
              simp [call_llm, hj, h4, hl, hb]
          | null => simp [call_llm, hj, h4, hb]
          | bool b => simp [call_llm, hj, h4, hb]
          | num n => simp [call_llm, hj, h4, hb]
          | str s => simp [call_llm, hj, h4, hb]
          | arr xs => simp [call_llm, hj, h4, hb]

theorem warning_mem_logs (cfg : Config) (model : String) (input : PromptInput)
    (outcome : TransportOutcome) (h : keyTruthy cfg = false) :
    (⟨.warning, missingKeyWarning⟩ : LogRecord)
      ∈ (call_llm cfg model input outcome).logs := by
  cases hj : joinPrompt input with
  | error e => simp [call_llm, hj, baseLogs, h]
  | ok p =>
    cases outcome with
    | exception desc => simp [call_llm, hj, baseLogs, h]
    | response status jsonData text =>
      by_cases h4 : 400 ≤ status
      · simp [call_llm, hj, h4, baseLogs, h]
      · cases jsonData with
        | none => simp [call_llm, hj, h4, baseLogs, h]
        | some data =>
          cases data with
          | obj kvs =>
            cases hl : lookupKey kvs "response" <;>
              simp [call_llm, hj, h4, hl, baseLogs, h]
          | null => simp [call_llm, hj, h4, baseLogs, h]
          | bool b => simp [call_llm, hj, h4, baseLogs, h]
          | num n => simp [call_llm, hj, h4, baseLogs, h]
          | str s => simp [call_llm, hj, h4, baseLogs, h]
          | arr xs => simp [call_llm, hj, h4, baseLogs, h]

/-! ### Claim theorems -/

/-- Claim C1, counterexample: with credential `K = "A"` and prompt
`["A"]` (an input whose text contains the literal value of `K`), the
serialized JSON request body of the single POST does contain `K` as a
substring, refuting "the request body never contains K as a substring". -/
theorem c1_counterexample :
    ((call_llm ⟨some "A", "http://api.example"⟩ "m" (.strs ["A"])
        (.response 200 (some (.obj [("response", .str "ok")])) "")).attempts.map
      fun r => strOccurs "A" (requestBody r)) = [true] := by decide

/-- Claim C1 (amended): the request body is independent of the credential —
for every configuration it is exactly the object with the two fields
`model_name` and `prompt` built from the call's own arguments, so it can
contain the credential only when the prompt or model text itself does — and
the Authorization header sent equals `"Bearer " ++ K`. -/
theorem c1_credential_isolated (k url model p : String) (input : PromptInput)
    (outcome : TransportOutcome) (hk : k ≠ "") (hp : joinPrompt input = .ok p) :
    (∀ cfg : Config, (call_llm cfg model input outcome).attempts.map Request.bodyJson
        = [buildPayload model p])
    ∧ ∀ r ∈ (call_llm ⟨some k, url⟩ model input outcome).attempts,
        r.headers = [("Content-Type", "application/json"),
          ("Authorization", "Bearer " ++ k)] := by
  constructor
  · intro cfg
    simp [call_llm_attempts cfg model input outcome p hp, buildRequest]
  · intro r hr
    rw [call_llm_attempts _ model input outcome p hp] at hr
    simp at hr
    subst hr
    simp [buildRequest, buildHeaders, keyTruthy, hk]

theorem c1_credential_isolated_witness :
    (∀ cfg : Config, (call_llm cfg "m" (.strs ["hi"])
        (.response 200 none "x")).attempts.map Request.bodyJson
        = [buildPayload "m" "hi"])
    ∧ ∀ r ∈ (call_llm ⟨some "K", "u"⟩ "m" (.strs ["hi"])
        (.response 200 none "x")).attempts,
        r.headers = [("Content-Type", "application/json"),
          ("Authorization", "Bearer " ++ "K")] :=
  c1_credential_isolated "K" "u" "m" "hi" (.strs ["hi"])
    (.response 200 none "x") (by decide) rfl

/-- Claim C2, counterexample: for a prompt given as role/content message
objects — an input the spec admits — `"\n".join(messages)` raises
`TypeError` before any request is made, so an exception escapes `call_llm`
instead of a returned string. -/
theorem c2_counterexample :
    (call_llm ⟨some "K", "u"⟩ "m" (.msgs [⟨"user", "hi"⟩])
        (.response 200 (some (.obj [("response", .str "ok")])) "ok")).result
      = .error (.typeError "sequence item 0: expected str instance, dict found") :=
  rfl

/-- Claim C2 (amended): for every prompt given as a sequence of plain
strings (including the empty sequence) and every transport outcome,
`call_llm` returns a value and no exception escapes; for a non-empty
sequence of role/content message objects the newline join raises a
`TypeError` instead. -/
theorem c2_no_escape_for_string_prompts (cfg : Config) (model : String)
    (outcome : TransportOutcome) :
    (∀ lines : List String,
        ∃ v, (call_llm cfg model (.strs lines) outcome).result = .ok v)
    ∧ ∀ (m : ChatMessage) (ms : List ChatMessage),
        (call_llm cfg model (.msgs (m :: ms)) outcome).result
          = .error (.typeError "sequence item 0: expected str instance, dict found") := by
  constructor
  · intro lines
    cases outcome with
    | exception desc => simp [call_llm, joinPrompt]
    | response status jsonData text =>
      by_cases h4 : 400 ≤ status
      · simp [call_llm, joinPrompt, h4]
      · cases jsonData with
        | none => simp [call_llm, joinPrompt, h4]
        | some data =>
          cases data with
          | obj kvs =>
            cases hl : lookupKey kvs "response" <;>
              simp [call_llm, joinPrompt, h4, hl]
          | null => simp [call_llm, joinPrompt, h4]
          | bool b => simp [call_llm, joinPrompt, h4]
          | num n => simp [call_llm, joinPrompt, h4]
          | str s => simp [call_llm, joinPrompt, h4]
          | arr xs => simp [call_llm, joinPrompt, h4]
  · intro m ms
    simp [call_llm, joinPrompt]

/-- Claim C3: for every string `S` (including the empty string), if the
transport returns an HTTP status below 400 with a JSON body that is a
mapping containing the key `response` with value `S`, then `call_llm`
returns exactly `S`. -/
theorem c3_success_returns_response_value (cfg : Config) (model : String)
    (input : PromptInput) (p : String) (status : Nat)
    (kvs : List (String × Json)) (text S : String)
    (hp : joinPrompt input = .ok p) (hs : status < 400)
    (hk : lookupKey kvs "response" = some (.str S)) :
    (call_llm cfg model input (.response status (some (.obj kvs)) text)).result
      = .ok (.str S) := by
  have h4 : ¬ 400 ≤ status := Nat.not_le.mpr hs
  simp [call_llm, hp, h4, hk]

theorem c3_success_returns_response_value_witness :
    (call_llm ⟨some "K", "u"⟩ "m" (.strs ["hi"])
        (.response 200 (some (.obj [("response", .str "")])) "t")).result
      = .ok (.str "") :=
  c3_success_returns_response_value ⟨some "K", "u"⟩ "m" (.strs ["hi"]) "hi"
    200 [("response", .str "")] "t" "" rfl (by decide) rfl

/-- Claim C4: outcome classification and its precedence — a transport
exception yields the network-error string embedding the failure's
description; otherwise a status `≥ 400` yields the API-error string
embedding the status and the body parsed as JSON if parseable else the raw
text (whatever the body, so a `response` key is preempted); otherwise a
body that is not valid JSON yields the parse-error string. -/
theorem c4_outcome_classification (cfg : Config) (model : String)
    (lines : List String) :
    (∀ desc, (call_llm cfg model (.strs lines) (.exception desc)).result
        = .ok (.str ("[Сетевая ошибка] " ++ desc)))
    ∧ (∀ status jsonData text, 400 ≤ status →
        (call_llm cfg model (.strs lines) (.response status jsonData text)).result
          = .ok (.str ("[Ошибка API " ++ toString status ++ "] "
              ++ apiErrText jsonData text)))
    ∧ (∀ status text, status < 400 →
        (call_llm cfg model (.strs lines) (.response status none text)).result
          = .ok (.str "[Ошибка] Невалидный JSON в ответе от LLM")) := by
  refine ⟨fun desc => ?_, fun status jsonData text h4 => ?_,
    fun status text hs => ?_⟩
  · simp [call_llm, joinPrompt]
  · simp [call_llm, joinPrompt, h4]
  · simp [call_llm, joinPrompt, Nat.not_le.mpr hs]

theorem c4_outcome_classification_witness :
    (call_llm ⟨some "K", "u"⟩ "m" (.strs ["x"]) (.exception "boom")).result
        = .ok (.str ("[Сетевая ошибка] " ++ "boom"))
    ∧ (call_llm ⟨some "K", "u"⟩ "m" (.strs ["x"])
        (.response 500 (some (.obj [("response", .str "ok")])) "t")).result
        = .ok (.str ("[Ошибка API " ++ toString 500 ++ "] "
            ++ apiErrText (some (.obj [("response", .str "ok")])) "t"))
    ∧ (call_llm ⟨some "K", "u"⟩ "m" (.strs ["x"])
        (.response 200 none "not json")).result
        = .ok (.str "[Ошибка] Невалидный JSON в ответе от LLM") :=
  ⟨(c4_outcome_classification ⟨some "K", "u"⟩ "m" ["x"]).1 "boom",
   (c4_outcome_classification ⟨some "K", "u"⟩ "m" ["x"]).2.1 500
     (some (.obj [("response", .str "ok")])) "t" (by decide),
   (c4_outcome_classification ⟨some "K", "u"⟩ "m" ["x"]).2.2 200
     "not json" (by decide)⟩

/-- Claim C5: on a status below 400 with a body that is valid JSON but is
not a mapping containing a `response` key, `call_llm` consistently applies
the stricter convention: it returns the unexpected-format error string
embedding the raw payload (serialized with `json.dumps`), never the empty
string. -/
theorem c5_strict_format_error (cfg : Config) (model : String)
    (input : PromptInput) (p : String) (status : Nat) (data : Json)
    (text : String) (hp : joinPrompt input = .ok p) (hs : status < 400)
    (hk : hasResponseKey data = false) :
    (call_llm cfg model input (.response status (some data) text)).result
      = .ok (.str ("[Ошибка] Непредвиденный формат ответа: " ++ dumps data)) := by
  have h4 : ¬ 400 ≤ status := Nat.not_le.mpr hs
  cases data with
  | obj kvs =>
    cases hl : lookupKey kvs "response" with
    | none => simp [call_llm, hp, h4, hl]
    | some v => simp [hasResponseKey, hl] at hk
  | null => simp [call_llm, hp, h4]
  | bool b => simp [call_llm, hp, h4]
  | num n => simp [call_llm, hp, h4]
  | str s => simp [call_llm, hp, h4]
  | arr xs => simp [call_llm, hp, h4]

theorem c5_strict_format_error_witness :
    (call_llm ⟨some "K", "u"⟩ "m" (.strs ["hi"])
        (.response 200 (some (.obj [("detail", .str "no")])) "t")).result
      = .ok (.str ("[Ошибка] Непредвиденный формат ответа: "
          ++ dumps (.obj [("detail", .str "no")]))) :=
  c5_strict_format_error ⟨some "K", "u"⟩ "m" (.strs ["hi"]) "hi" 200
    (.obj [("detail", .str "no")]) "t" rfl (by decide) (by decide)

/-- Claim C6, counterexample: with credential `K = "A"` and a status-500
response whose raw body is `"A"` (not valid JSON, so `err = resp.text`),
the error log record emitted by `call_llm` contains `K` as a substring,
refuting "no log record emitted on any path contains K". -/
theorem c6_counterexample :
    ((call_llm ⟨some "A", "u"⟩ "m" (.strs ["hi"])
        (.response 500 none "A")).logs.map
      fun r => strOccurs "A" r.message) = [false, true] := by decide

/-- Claim C6 (amended): the log records never draw on the credential value:
any two configurations that agree on whether a credential is configured
produce identical log records on every path, so a log record can contain
`K` only when `K` occurs in the model name, the transport failure's
description, or the response body supplied from outside. -/
theorem c6_logs_credential_independent (cfg1 cfg2 : Config) (model : String)
    (input : PromptInput) (outcome : TransportOutcome)
    (h : keyTruthy cfg1 = keyTruthy cfg2) :
    (call_llm cfg1 model input outcome).logs
      = (call_llm cfg2 model input outcome).logs :=
  call_llm_logs_congr cfg1 cfg2 model input outcome h

theorem c6_logs_credential_independent_witness :
    (call_llm ⟨some "K1", "u"⟩ "m" (.strs ["hi"]) (.exception "boom")).logs
      = (call_llm ⟨some "K2", "u"⟩ "m" (.strs ["hi"]) (.exception "boom")).logs :=
  c6_logs_credential_independent ⟨some "K1", "u"⟩ ⟨some "K2", "u"⟩ "m"
    (.strs ["hi"]) (.exception "boom") (by decide)

/-- Claim C7: every request issued carries `Content-Type: application/json`;
the `Authorization` header is present exactly when a (truthy) credential is
configured; and when none is configured a warning is logged while the POST
is still issued. -/
theorem c7_headers_and_warning (cfg : Config) (model : String)
    (input : PromptInput) (outcome : TransportOutcome) (p : String)
    (hp : joinPrompt input = .ok p) :
    (call_llm cfg model input outcome).attempts = [buildRequest cfg model p]
    ∧ (buildHeaders cfg).lookup "Content-Type" = some "application/json"
    ∧ ((buildHeaders cfg).lookup "Authorization"
        = if keyTruthy cfg then some ("Bearer " ++ cfg.apiKey.getD "") else none)
    ∧ (keyTruthy cfg = false →
        (⟨.warning, missingKeyWarning⟩ : LogRecord)
          ∈ (call_llm cfg model input outcome).logs) := by
  refine ⟨call_llm_attempts cfg model input outcome p hp, ?_, ?_,
    fun h => warning_mem_logs cfg model input outcome h⟩
  · by_cases h : keyTruthy cfg <;> simp [buildHeaders, h, List.lookup]
  · by_cases h : keyTruthy cfg <;> simp [buildHeaders, h, List.lookup]

theorem c7_headers_and_warning_witness :
    (call_llm ⟨none, "u"⟩ "m" (.strs ["hi"]) (.exception "boom")).attempts
        = [buildRequest ⟨none, "u"⟩ "m" "hi"]
    ∧ (buildHeaders ⟨none, "u"⟩).lookup "Content-Type" = some "application/json"
    ∧ ((buildHeaders ⟨none, "u"⟩).lookup "Authorization"
        = if keyTruthy ⟨none, "u"⟩ then
            some ("Bearer " ++ (Config.mk none "u").apiKey.getD "") else none)
    ∧ (keyTruthy ⟨none, "u"⟩ = false →
        (⟨.warning, missingKeyWarning⟩ : LogRecord)
          ∈ (call_llm ⟨none, "u"⟩ "m" (.strs ["hi"]) (.exception "boom")).logs) :=
  c7_headers_and_warning ⟨none, "u"⟩ "m" (.strs ["hi"]) (.exception "boom")
    "hi" rfl

/-- Claim C8: under the joined-text convention the JSON body has exactly
the keys `model_name` (the model identifier verbatim) and `prompt` (the
input strings joined with newline separators); for a single-element list
the `prompt` field equals that element exactly. -/
theorem c8_joined_text_body (cfg : Config) (model : String)
    (outcome : TransportOutcome) :
    (∀ lines : List String,
        (call_llm cfg model (.strs lines) outcome).attempts.map Request.bodyJson
          = [Json.obj [("model_name", .str model),
              ("prompt", .str (String.intercalate "\n" lines))]])
    ∧ ∀ s : String,
        (call_llm cfg model (.strs [s]) outcome).attempts.map Request.bodyJson
          = [Json.obj [("model_name", .str model), ("prompt", .str s)]] := by
  constructor
  · intro lines
    simp [call_llm_attempts cfg model (.strs lines) outcome
      (String.intercalate "\n" lines) rfl, buildRequest, buildPayload]
  · intro s
    simp [call_llm_attempts cfg model (.strs [s]) outcome s rfl,
      buildRequest, buildPayload]

/-- Claim C9: whenever the prompt join succeeds, exactly one POST is
attempted — no retry, backoff or second request on any outcome — and a
transport failure yields the single network-error string. -/
theorem c9_single_attempt (cfg : Config) (model : String)
    (input : PromptInput) (outcome : TransportOutcome) (p : String)
    (hp : joinPrompt input = .ok p) :
    (call_llm cfg model input outcome).attempts.length = 1
    ∧ ∀ desc, (call_llm cfg model input (.exception desc)).attempts.length = 1
        ∧ (call_llm cfg model input (.exception desc)).result
            = .ok (.str ("[Сетевая ошибка] " ++ desc)) := by
  refine ⟨by simp [call_llm_attempts cfg model input outcome p hp], fun desc => ?_⟩
  constructor
  · simp [call_llm_attempts cfg model input (.exception desc) p hp]
  · simp [call_llm, hp]

theorem c9_single_attempt_witness :
    (call_llm ⟨some "K", "u"⟩ "m" (.strs ["hi"])
        (.response 200 none "t")).attempts.length = 1
    ∧ ∀ desc, (call_llm ⟨some "K", "u"⟩ "m" (.strs ["hi"])
          (.exception desc)).attempts.length = 1
        ∧ (call_llm ⟨some "K", "u"⟩ "m" (.strs ["hi"])
              (.exception desc)).result
            = .ok (.str ("[Сетевая ошибка] " ++ desc)) :=
  c9_single_attempt ⟨some "K", "u"⟩ "m" (.strs ["hi"])
    (.response 200 none "t") "hi" rfl

/-- Claim C10 (implicit): the declared string return type is not enforced
on the success path — whatever JSON value sits under the `response` key
(number, null, list, object or string) is returned unchanged. -/
theorem c10_response_value_not_coerced (cfg : Config) (model : String)
    (input : PromptInput) (p : String) (status : Nat)
    (kvs : List (String × Json)) (text : String) (v : Json)
    (hp : joinPrompt input = .ok p) (hs : status < 400)
    (hk : lookupKey kvs "response" = some v) :
    (call_llm cfg model input (.response status (some (.obj kvs)) text)).result
      = .ok v := by
  have h4 : ¬ 400 ≤ status := Nat.not_le.mpr hs
  simp [call_llm, hp, h4, hk]

theorem c10_response_value_not_coerced_witness :
    (call_llm ⟨some "K", "u"⟩ "m" (.strs ["hi"])
        (.response 200 (some (.obj [("response", .num 7)])) "t")).result
      = .ok (.num 7) :=
  c10_response_value_not_coerced ⟨some "K", "u"⟩ "m" (.strs ["hi"]) "hi"
    200 [("response", .num 7)] "t" (.num 7) rfl (by decide) rfl

end LLMApp
